import Mathlib

/-!
Verification of the jump-arcade engine in `src/js/jump_game.js`.

The JavaScript core is shallowly embedded: JS numbers are modelled as
rationals (`ℚ`), the score and combo counters (only ever assigned 0 or
incremented) as naturals, and each method of the `JumpGame`, `Player` and
`Platform` classes as a pure state-passing function.  Randomness
(`Math.random()`) is externalized as explicit rational parameters, and the
wall clock (`Date.now()`) as an explicit `now` parameter.  Audio, haptics,
particles and rendering are external collaborators with no effect on core
state and are omitted.  Note on division: JS division by zero yields
`Infinity`/`NaN`, while `ℚ` division by zero yields 0; wherever that matters
the theorems speak about the divisor itself.
-/

namespace JumpGame

/-- Platform types (`PLATFORM_TYPE`, jump_game.js lines 44-48). -/
inductive PlatformType
  | normal
  | bonus
  | spring
deriving DecidableEq

/-- Game states (`GAME_STATE`, jump_game.js lines 36-41). -/
inductive GameState
  | start
  | charging
  | jumping
  | gameOver
deriving DecidableEq

/-- The tunable constants (`CONFIG`, jump_game.js lines 9-33); decorative
fields (colors, particle parameters) are omitted. -/
structure Config where
  GRAVITY : ℚ
  JUMP_FORCE : ℚ
  MIN_POWER : ℚ
  MAX_POWER : ℚ
  PLATFORM_WIDTH : ℚ
  PLATFORM_HEIGHT : ℚ
  BASE_DISTANCE : ℚ
  DIFFICULTY_FACTOR : ℚ
  PLAYER_SIZE : ℚ
  GROUND_Y : ℚ
  PERFECT_TOLERANCE : ℚ
deriving DecidableEq

/-- The literal values of `CONFIG` (jump_game.js lines 9-33):
gravity 0.6, jump force 15, min power 0.3, max power 1.0, platform 80 by 20,
base distance 100, difficulty factor 1.5, player size 90, ground y 300,
perfect tolerance 5. -/
def defaultConfig : Config :=
  { GRAVITY := 3/5
    JUMP_FORCE := 15
    MIN_POWER := 3/10
    MAX_POWER := 1
    PLATFORM_WIDTH := 80
    PLATFORM_HEIGHT := 20
    BASE_DISTANCE := 100
    DIFFICULTY_FACTOR := 3/2
    PLAYER_SIZE := 90
    GROUND_Y := 300
    PERFECT_TOLERANCE := 5 }

/-- The `Player` class state (jump_game.js lines 1273-1283): position is the
top-left corner of the bounding box; `size` always equals
`CONFIG.PLAYER_SIZE`, so it is read from the configuration instead of being
stored. -/
structure Player where
  x : ℚ
  y : ℚ
  vx : ℚ
  vy : ℚ
  isJumping : Bool
deriving DecidableEq

/-- The `Platform` class state (jump_game.js lines 1355-1362); `width` and
`height` always equal the configured constants and are read from the
configuration. -/
structure Platform where
  x : ℚ
  y : ℚ
  type : PlatformType
deriving DecidableEq

/-- The core mutable state of the `JumpGame` class (jump_game.js lines
50-79): game state, player, platform list, score, combo, camera x, charge
state, and the logical viewport width set up by `setupCanvas`.  Particles,
canvas handles and audio are decorative/external and omitted. -/
structure Game where
  gameState : GameState
  player : Player
  platforms : List Platform
  score : ℕ
  combo : ℕ
  cameraX : ℚ
  chargePower : ℚ
  isCharging : Bool
  touchStartTime : ℚ
  logicalWidth : ℚ
deriving DecidableEq

/-- `Player.jump(power, horizontalSpeed)` (jump_game.js lines 1303-1307):
sets `vy = -JUMP_FORCE * power`, `vx = horizontalSpeed`, `isJumping = true`. -/
def Player.jump (cfg : Config) (p : Player) (power horizontalSpeed : ℚ) : Player :=
  { p with vy := -(cfg.JUMP_FORCE * power), vx := horizontalSpeed, isJumping := true }

/-- `Player.update()` (jump_game.js lines 1309-1315): while `isJumping`,
integrate position by velocity and accumulate gravity on `vy`; otherwise do
nothing. -/
def Player.update (cfg : Config) (p : Player) : Player :=
  if p.isJumping then
    { p with x := p.x + p.vx, y := p.y + p.vy, vy := p.vy + cfg.GRAVITY }
  else p

/-- `Player.land(y)` (jump_game.js lines 1317-1322): snap to the given y,
zero both velocities, clear `isJumping`. -/
def Player.land (p : Player) (y : ℚ) : Player :=
  { p with y := y, vx := 0, vy := 0, isJumping := false }

/-- `Player.isLanding()` (jump_game.js lines 1324-1326). -/
def Player.isLanding (cfg : Config) (p : Player) : Bool :=
  p.isJumping && decide (p.vy > 0) && decide (p.y ≥ cfg.GROUND_Y - cfg.PLAYER_SIZE)

/-- `JumpGame.getNextPlatform()` (jump_game.js lines 428-432): the first
platform in stream order with `x > player.x + PLAYER_SIZE`. -/
def getNextPlatform (cfg : Config) (g : Game) : Option Platform :=
  g.platforms.find? (fun platform => decide (platform.x > g.player.x + cfg.PLAYER_SIZE))

/-- `JumpGame.gameOver()` (jump_game.js lines 605-616): sets the game state
to `GAME_OVER`; the audio/vibration calls are external and touch no core
state.  In particular neither the player nor the score/combo counters are
modified. -/
def gameOver (g : Game) : Game :=
  { g with gameState := GameState.gameOver }

/-- The `power` local of `JumpGame.jump()` (jump_game.js line 400):
`Math.min(chargePower, MAX_POWER)`. -/
def jumpPower (cfg : Config) (g : Game) : ℚ :=
  min g.chargePower cfg.MAX_POWER

/-- The `jumpTime` local of `JumpGame.jump()` (jump_game.js lines 411-413):
`initialVy = JUMP_FORCE * power` and `jumpTime = 2 * initialVy / GRAVITY`. -/
def jumpTime (cfg : Config) (power : ℚ) : ℚ :=
  2 * (cfg.JUMP_FORCE * power) / cfg.GRAVITY

/-- `JumpGame.jump()` (jump_game.js lines 396-423): guard on the `CHARGING`
state, clamp the charge power from above by `MAX_POWER`, aim at
`getNextPlatform()` (no target means game over), compute
`horizontalSpeed = distance / jumpTime` and launch the player. -/
def jump (cfg : Config) (g : Game) : Game :=
  if g.gameState ≠ GameState.charging then g
  else
    let power := jumpPower cfg g
    match getNextPlatform cfg g with
    | none => gameOver g
    | some targetPlatform =>
      let distance := targetPlatform.x - g.player.x
      let horizontalSpeed := distance / jumpTime cfg power
      { g with player := Player.jump cfg g.player power horizontalSpeed,
               gameState := GameState.jumping }

/-- `JumpGame.handleSuccessfulLanding(platform)` (jump_game.js lines
495-533): perfect landing (center distance within tolerance) increments the
combo and adds `2 + combo` (the incremented combo) to the score; a normal
landing zeroes the combo and adds 1; landing on a bonus platform adds a
further 5. -/
def handleSuccessfulLanding (cfg : Config) (g : Game) (platform : Platform) : Game :=
  let centerX := platform.x + cfg.PLATFORM_WIDTH / 2
  let playerCenterX := g.player.x + cfg.PLAYER_SIZE / 2
  let distance := |centerX - playerCenterX|
  let g1 :=
    if distance ≤ cfg.PERFECT_TOLERANCE then
      { g with combo := g.combo + 1, score := g.score + 2 + (g.combo + 1) }
    else
      { g with combo := 0, score := g.score + 1 }
  if platform.type = PlatformType.bonus then { g1 with score := g1.score + 5 } else g1

/-- The `landedPlatform` local of `JumpGame.checkLanding()` (jump_game.js
lines 470-475): the first platform whose horizontal span strictly contains
the player's center and whose top is within the vertical tolerance band. -/
def landedPlatformOf (cfg : Config) (g : Game) : Option Platform :=
  g.platforms.find? (fun platform =>
    decide (g.player.x + cfg.PLAYER_SIZE / 2 > platform.x) &&
    decide (g.player.x + cfg.PLAYER_SIZE / 2 < platform.x + cfg.PLATFORM_WIDTH) &&
    decide (g.player.y + cfg.PLAYER_SIZE ≥ platform.y) &&
    decide (g.player.y + cfg.PLAYER_SIZE ≤ platform.y + cfg.PLATFORM_HEIGHT + 5))

/-- `JumpGame.checkLanding()` (jump_game.js lines 466-490): only while the
player is jumping and descending; once the player has reached ground height,
either land on the found platform (snap, score, back to `START`) or game
over.  The JS code runs `player.land` before `handleSuccessfulLanding` and
sets the state last; `land` does not change `player.x`, which the scoring
reads. -/
def checkLanding (cfg : Config) (g : Game) : Game :=
  if g.player.isJumping = false ∨ g.player.vy ≤ 0 then g
  else
    if g.player.y + cfg.PLAYER_SIZE ≥ cfg.GROUND_Y then
      match landedPlatformOf cfg g with
      | some platform =>
        let g1 := { g with player := g.player.land (platform.y - cfg.PLAYER_SIZE) }
        let g2 := handleSuccessfulLanding cfg g1 platform
        { g2 with gameState := GameState.start }
      | none => gameOver g
    else g

/-- `JumpGame.updateCamera()` (jump_game.js lines 562-570): frozen in
`GAME_OVER`, otherwise a fixed 0.1 exponential lag toward
`player.x - logicalWidth / 2`. -/
def updateCamera (g : Game) : Game :=
  if g.gameState = GameState.gameOver then g
  else
    let targetX := g.player.x - g.logicalWidth / 2
    { g with cameraX := g.cameraX + (targetX - g.cameraX) * (1/10) }

/-- `JumpGame.getRandomPlatformType()` (jump_game.js lines 595-600) with the
`Math.random()` draw (a rational in `[0,1)`) passed in explicitly. -/
def getRandomPlatformType (rand : ℚ) : PlatformType :=
  if rand < 1/10 then PlatformType.bonus
  else if rand < 3/20 then PlatformType.spring
  else PlatformType.normal

/-- `JumpGame.generatePlatforms()` (jump_game.js lines 575-590).  `rand` is
the value of `Math.random() * 100` (a rational in `[0,100)`) and `typeRand`
the separate `Math.random()` draw used for the platform type.  The JS code
reads `platforms[platforms.length - 1]` unconditionally; the empty-stream
case (which would fault in JS and never occurs after initialization) is
modelled as a no-op.  A single conditional append is followed by the
eviction filter. -/
def generatePlatforms (cfg : Config) (rand typeRand : ℚ) (g : Game) : Game :=
  match g.platforms.getLast? with
  | none => g
  | some lastPlatform =>
    let rightmostX := lastPlatform.x
    let g1 :=
      if rightmostX < g.cameraX + g.logicalWidth + 200 then
        let newX := rightmostX + cfg.BASE_DISTANCE + rand + (g.score : ℚ) * cfg.DIFFICULTY_FACTOR
        { g with platforms :=
            g.platforms ++ [⟨newX, cfg.GROUND_Y, getRandomPlatformType typeRand⟩] }
      else g
    { g1 with platforms := g1.platforms.filter (fun platform => decide (platform.x > g.cameraX - 200)) }

/-- `JumpGame.initGameObjects()` (jump_game.js lines 283-301): fresh player
resting on the ground, the two initial platforms, and zeroed score, combo
and camera, in the `START` state. -/
def initGameObjects (cfg : Config) (g : Game) : Game :=
  { g with
    player := ⟨g.logicalWidth / 2 - cfg.PLAYER_SIZE / 2, cfg.GROUND_Y - cfg.PLAYER_SIZE, 0, 0, false⟩
    platforms :=
      [⟨g.logicalWidth / 2 - cfg.PLATFORM_WIDTH / 2, cfg.GROUND_Y, PlatformType.normal⟩,
       ⟨g.logicalWidth / 2 + 150, cfg.GROUND_Y, PlatformType.normal⟩]
    score := 0
    combo := 0
    cameraX := 0
    gameState := GameState.start }

/-- `JumpGame.restart()` (jump_game.js lines 621-624); the particle reset is
decorative. -/
def restart (cfg : Config) (g : Game) : Game :=
  initGameObjects cfg g

/-- `JumpGame.handleTouchStart(touch)` (jump_game.js lines 362-381): in
`START`, begin charging (record the touch time, zero the charge power); in
`GAME_OVER`, restart; in `CHARGING` and `JUMPING` the handler does nothing
to core state (the audio-context call is external). -/
def handleTouchStart (cfg : Config) (now : ℚ) (g : Game) : Game :=
  if g.gameState = GameState.start then
    { g with gameState := GameState.charging, isCharging := true,
             touchStartTime := now, chargePower := 0 }
  else if g.gameState = GameState.gameOver then restart cfg g
  else g

/-- `JumpGame.handleTouchEnd(touch)` (jump_game.js lines 386-391): only in
the `CHARGING` state with `isCharging` set does release clear the charging
flag and invoke `jump()`. -/
def handleTouchEnd (cfg : Config) (g : Game) : Game :=
  if g.gameState = GameState.charging ∧ g.isCharging = true then
    jump cfg { g with isCharging := false }
  else g

/-- The charge-update head of `JumpGame.update()` (jump_game.js lines
439-443): while charging, `chargePower = min(elapsedSeconds * 0.8, MAX_POWER)`
where `elapsedSeconds = (now - touchStartTime) / 1000`. -/
def updateCharge (cfg : Config) (now : ℚ) (g : Game) : Game :=
  if g.isCharging = true then
    let chargeTime := (now - g.touchStartTime) / 1000
    { g with chargePower := min (chargeTime * (4/5)) cfg.MAX_POWER }
  else g

/-- One scheduler tick, `JumpGame.update()` (jump_game.js lines 437-461):
charge update, player integration, landing check (only in `JUMPING` when
`player.isLanding()`), camera update, platform generation/eviction.  The
particle update is decorative and omitted. -/
def update (cfg : Config) (now rand typeRand : ℚ) (g : Game) : Game :=
  let g1 := updateCharge cfg now g
  let g2 := { g1 with player := g1.player.update cfg }
  let g3 :=
    if g2.gameState = GameState.jumping ∧ g2.player.isLanding cfg = true then
      checkLanding cfg g2
    else g2
  let g4 := updateCamera g3
  generatePlatforms cfg rand typeRand g4

/-! ### Concrete sample states used by witnesses and counterexamples -/

/-- A charging session with zero charge power, the player at the origin
resting height, and one platform 100 units ahead. -/
def gZeroPower : Game :=
  { gameState := GameState.charging
    player := ⟨0, 210, 0, 0, false⟩
    platforms := [⟨100, 300, PlatformType.normal⟩]
    score := 0
    combo := 0
    cameraX := 0
    chargePower := 0
    isCharging := true
    touchStartTime := 0
    logicalWidth := 800 }

/-- The same charging session with full charge power 1. -/
def gFullPower : Game :=
  { gZeroPower with chargePower := 1 }

/-! ### Claim theorems -/

/-- C1: the spec requires the power used by `JumpGame.jump()` to be clamped
to a minimum nonzero charge power so the time-of-flight divisor is never
zero.  The code declares `CONFIG.MIN_POWER = 0.3` but never reads it: on a
release with `chargePower = 0` the power actually used is 0, the
time-of-flight `jumpTime` is 0 (in JS the subsequent division yields an
infinite horizontal speed), and the session still enters `JUMPING` with a
zero vertical launch velocity.  This evaluates the code at that failing
input. -/
theorem jump_zero_power_not_clamped :
    jumpPower defaultConfig gZeroPower = 0 ∧
    jumpTime defaultConfig (jumpPower defaultConfig gZeroPower) = 0 ∧
    0 < defaultConfig.MIN_POWER ∧
    (jump defaultConfig gZeroPower).gameState = GameState.jumping ∧
    (jump defaultConfig gZeroPower).player.vy = 0 := by
  have hpow : jumpPower defaultConfig gZeroPower = 0 := by
    norm_num [jumpPower, gZeroPower, defaultConfig]
  have hstate : gZeroPower.gameState = GameState.charging := rfl
  have hnext : getNextPlatform defaultConfig gZeroPower =
      some ⟨100, 300, PlatformType.normal⟩ := by
    norm_num [getNextPlatform, gZeroPower, defaultConfig, List.find?]
  refine ⟨hpow, ?_, ?_, ?_, ?_⟩
  · rw [hpow]; norm_num [jumpTime, defaultConfig]
  · norm_num [defaultConfig]
  · simp [jump, hstate, hnext]
  · simp [jump, hstate, hnext, Player.jump, hpow]

/-- C2: for power in `(0, MAX_POWER]` and positive gravity, a release in the
charging state aimed at a found target launches the player with
`vy0 = -JUMP_FORCE * power`, time-of-flight
`jumpTime = 2 * JUMP_FORCE * power / GRAVITY`, and horizontal speed
`(target.x - player.x) / jumpTime`, entering the `JUMPING` state. -/
theorem jump_physics (cfg : Config) (g : Game) (target : Platform)
    (hG : 0 < cfg.GRAVITY) (hpow : 0 < g.chargePower)
    (hmax : g.chargePower ≤ cfg.MAX_POWER)
    (hstate : g.gameState = GameState.charging)
    (htarget : getNextPlatform cfg g = some target) :
    (jump cfg g).player.vy = -(cfg.JUMP_FORCE * g.chargePower) ∧
    jumpTime cfg g.chargePower = 2 * (cfg.JUMP_FORCE * g.chargePower) / cfg.GRAVITY ∧
    (jump cfg g).player.vx =
      (target.x - g.player.x) / (2 * (cfg.JUMP_FORCE * g.chargePower) / cfg.GRAVITY) ∧
    (jump cfg g).gameState = GameState.jumping := by
  have hp : jumpPower cfg g = g.chargePower := min_eq_left hmax
  simp only [jump, hstate, ne_eq, not_true_eq_false, if_false, htarget, hp,
    Player.jump, jumpTime]
  simp

/-- Witness for C2, the spec scenario: power 1, gravity 0.6, jump force 15,
horizontal distance 100 give a launch velocity of -15, a 50-tick flight and
a horizontal speed of 2 per tick. -/
theorem jump_physics_witness :
    (jump defaultConfig gFullPower).player.vy = -15 ∧
    jumpTime defaultConfig gFullPower.chargePower = 50 ∧
    (jump defaultConfig gFullPower).player.vx = 2 := by
  obtain ⟨h1, h2, h3, _⟩ :=
    jump_physics defaultConfig gFullPower ⟨100, 300, PlatformType.normal⟩
      (by norm_num [defaultConfig]) (by norm_num [gFullPower, gZeroPower])
      (by norm_num [gFullPower, gZeroPower, defaultConfig]) rfl
      (by norm_num [getNextPlatform, gFullPower, gZeroPower, defaultConfig, List.find?])
  refine ⟨h1.trans (by norm_num [defaultConfig, gFullPower, gZeroPower]),
    h2.trans (by norm_num [defaultConfig, gFullPower, gZeroPower]),
    h3.trans (by norm_num [defaultConfig, gFullPower, gZeroPower])⟩

/-! ### Score bookkeeping lemmas shared by several claims -/

theorem score_gameOver (g : Game) : (gameOver g).score = g.score := rfl

theorem combo_gameOver (g : Game) : (gameOver g).combo = g.combo := rfl

theorem player_gameOver (g : Game) : (gameOver g).player = g.player := rfl

theorem score_jump (cfg : Config) (g : Game) : (jump cfg g).score = g.score := by
  unfold jump
  split
  · rfl
  · split <;> rfl

theorem score_updateCharge (cfg : Config) (now : ℚ) (g : Game) :
    (updateCharge cfg now g).score = g.score := by
  unfold updateCharge
  split <;> rfl

theorem score_updateCamera (g : Game) : (updateCamera g).score = g.score := by
  unfold updateCamera
  split <;> rfl

theorem score_generatePlatforms (cfg : Config) (rand typeRand : ℚ) (g : Game) :
    (generatePlatforms cfg rand typeRand g).score = g.score := by
  simp only [generatePlatforms]
  split
  · rfl
  · split <;> rfl

theorem score_handleSuccessfulLanding_ge (cfg : Config) (g : Game) (platform : Platform) :
    g.score ≤ (handleSuccessfulLanding cfg g platform).score := by
  simp only [handleSuccessfulLanding]
  split <;> split <;> simp <;> omega

theorem score_checkLanding_ge (cfg : Config) (g : Game) :
    g.score ≤ (checkLanding cfg g).score := by
  unfold checkLanding
  split
  · exact le_refl _
  · split
    · split
      · rename_i platform heq
        exact score_handleSuccessfulLanding_ge cfg
          { g with player := g.player.land (platform.y - cfg.PLAYER_SIZE) } platform
      · exact le_refl _
    · exact le_refl _

/-- C5: for every successful landing, with
`distance = |platformCenter - playerCenter|`: within tolerance the combo is
incremented and the score grows by `2 + (combo + 1)` (combo 0 to 1 means
score grows by 3); otherwise the combo is zeroed and the score grows by 1;
a bonus platform adds a further 5 (so a normal landing on bonus adds 6). -/
theorem landing_scoring (cfg : Config) (g : Game) (platform : Platform) :
    (handleSuccessfulLanding cfg g platform).combo =
      (if |platform.x + cfg.PLATFORM_WIDTH / 2 - (g.player.x + cfg.PLAYER_SIZE / 2)| ≤
          cfg.PERFECT_TOLERANCE then g.combo + 1 else 0) ∧
    (handleSuccessfulLanding cfg g platform).score =
      g.score +
        (if |platform.x + cfg.PLATFORM_WIDTH / 2 - (g.player.x + cfg.PLAYER_SIZE / 2)| ≤
            cfg.PERFECT_TOLERANCE then 2 + (g.combo + 1) else 1) +
        (if platform.type = PlatformType.bonus then 5 else 0) := by
  simp only [handleSuccessfulLanding]
  constructor <;> split <;> split <;> simp_all <;> omega

/-- C6: within a run the score never decreases: a tick and a release event
can only keep or grow it, and a press event leaves it unchanged except in
`GAME_OVER`, where the press performs the session reset that zeroes it. -/
theorem score_monotone (cfg : Config) (now rand typeRand : ℚ) (g : Game) :
    g.score ≤ (update cfg now rand typeRand g).score ∧
    g.score ≤ (handleTouchEnd cfg g).score ∧
    (handleTouchStart cfg now g).score =
      (if g.gameState = GameState.gameOver then 0 else g.score) := by
  refine ⟨?_, ?_, ?_⟩
  · unfold update
    rw [score_generatePlatforms, score_updateCamera]
    set g2 : Game :=
      { updateCharge cfg now g with player := Player.update cfg (updateCharge cfg now g).player }
      with hg2
    have h2 : g.score = g2.score := (score_updateCharge cfg now g).symm
    split
    · exact h2.le.trans (score_checkLanding_ge cfg g2)
    · exact h2.le
  · unfold handleTouchEnd
    split
    · rw [score_jump]
    · exact le_refl _
  · unfold handleTouchStart restart initGameObjects
    cases hgs : g.gameState <;> simp [hgs]

/-- A charging session whose only platform is behind the reach threshold
(`x = 50` is not beyond `player.x + PLAYER_SIZE = 90`), so no jump target
exists. -/
def gNoTarget : Game :=
  { gZeroPower with platforms := [⟨50, 300, PlatformType.normal⟩], chargePower := 1/2 }

/-- A session in the `JUMPING` state, not charging. -/
def gJumping : Game :=
  { gZeroPower with gameState := GameState.jumping, isCharging := false }

/-- C9: a release in the `CHARGING` state with no platform beyond
`player.x + PLAYER_SIZE` transitions directly to `GAME_OVER` and leaves the
player record (position and velocity included) untouched. -/
theorem release_no_target_game_over (cfg : Config) (g : Game)
    (hstate : g.gameState = GameState.charging) (hch : g.isCharging = true)
    (hnone : getNextPlatform cfg g = none) :
    (handleTouchEnd cfg g).gameState = GameState.gameOver ∧
    (handleTouchEnd cfg g).player = g.player := by
  have hnone2 : getNextPlatform cfg { g with isCharging := false } = none := hnone
  have h1 : handleTouchEnd cfg g = jump cfg { g with isCharging := false } := by
    unfold handleTouchEnd
    rw [if_pos ⟨hstate, hch⟩]
  have h2 : jump cfg { g with isCharging := false } =
      gameOver { g with isCharging := false } := by
    unfold jump
    rw [if_neg (by simp [hstate]), hnone2]
  rw [h1, h2]
  exact ⟨rfl, rfl⟩

/-- Witness for C9: in `gNoTarget` a release causes an immediate game over
with the player untouched. -/
theorem release_no_target_game_over_witness :
    (handleTouchEnd defaultConfig gNoTarget).gameState = GameState.gameOver ∧
    (handleTouchEnd defaultConfig gNoTarget).player = gNoTarget.player :=
  release_no_target_game_over defaultConfig gNoTarget rfl rfl
    (by norm_num [getNextPlatform, gNoTarget, gZeroPower, defaultConfig, List.find?])

/-- C10: input events with no defined transition are no-ops on the whole
core state: a press while `CHARGING` or `JUMPING` returns the state
unchanged, and a release in any state other than `CHARGING` (or with the
charging flag clear) returns the state unchanged. -/
theorem undefined_transitions_noop (cfg : Config) (now : ℚ) (g : Game) :
    ((g.gameState = GameState.charging ∨ g.gameState = GameState.jumping) →
      handleTouchStart cfg now g = g) ∧
    (¬ (g.gameState = GameState.charging ∧ g.isCharging = true) →
      handleTouchEnd cfg g = g) := by
  constructor
  · intro h
    rcases h with h | h <;> simp [handleTouchStart, h]
  · intro h
    unfold handleTouchEnd
    rw [if_neg h]

/-- Witness for C10: a press and a release are both no-ops in the concrete
`JUMPING` state `gJumping`. -/
theorem undefined_transitions_noop_witness :
    handleTouchStart defaultConfig 0 gJumping = gJumping ∧
    handleTouchEnd defaultConfig gJumping = gJumping := by
  have h := undefined_transitions_noop defaultConfig 0 gJumping
  exact ⟨h.1 (Or.inr rfl), h.2 (by simp [gJumping, gZeroPower])⟩

/-! ### Player bookkeeping lemmas -/

theorem player_updateCharge (cfg : Config) (now : ℚ) (g : Game) :
    (updateCharge cfg now g).player = g.player := by
  unfold updateCharge
  split <;> rfl

theorem gameState_updateCharge (cfg : Config) (now : ℚ) (g : Game) :
    (updateCharge cfg now g).gameState = g.gameState := by
  unfold updateCharge
  split <;> rfl

theorem player_updateCamera (g : Game) : (updateCamera g).player = g.player := by
  unfold updateCamera
  split <;> rfl

theorem player_generatePlatforms (cfg : Config) (rand typeRand : ℚ) (g : Game) :
    (generatePlatforms cfg rand typeRand g).player = g.player := by
  simp only [generatePlatforms]
  split
  · rfl
  · split <;> rfl

/-- In the `GAME_OVER` state a tick still runs `Player.update` on the
player: the landing check is gated on `JUMPING` and the camera is frozen,
but the player integration is unconditional. -/
theorem update_player_game_over (cfg : Config) (now rand typeRand : ℚ) (g : Game)
    (hgo : g.gameState = GameState.gameOver) :
    (update cfg now rand typeRand g).player = Player.update cfg g.player := by
  simp only [update]
  rw [player_generatePlatforms, player_updateCamera]
  have hgs2 : (updateCharge cfg now g).gameState = GameState.gameOver := by
    rw [gameState_updateCharge, hgo]
  rw [if_neg]
  · show Player.update cfg (updateCharge cfg now g).player = Player.update cfg g.player
    rw [player_updateCharge]
  · rintro ⟨h1, -⟩
    have h1b : (updateCharge cfg now g).gameState = GameState.jumping := h1
    rw [hgs2] at h1b
    exact GameState.noConfusion h1b

/-- A `JUMPING` session descending past ground height with its only
platform far out of reach: the landing check fails. -/
def gMiss : Game :=
  { gameState := GameState.jumping
    player := ⟨0, 220, 2, 5, true⟩
    platforms := [⟨1000, 300, PlatformType.normal⟩]
    score := 3
    combo := 0
    cameraX := 0
    chargePower := 0
    isCharging := false
    touchStartTime := 0
    logicalWidth := 800 }

/-- The same state after the failure transition to `GAME_OVER`. -/
def gMissOver : Game :=
  { gMiss with gameState := GameState.gameOver }

/-- Counterexample to C3 as stated: the landing failure in `gMiss`
transitions to `GAME_OVER`, but the very next tick still changes the
player's position — the actor is not frozen, because `gameOver()` clears
neither `isJumping` nor the velocities and `Player.update()` is gated on
`isJumping`, not on the session state. -/
theorem game_over_not_frozen :
    (checkLanding defaultConfig gMiss).gameState = GameState.gameOver ∧
    (update defaultConfig 0 0 1 (checkLanding defaultConfig gMiss)).player.y ≠
      (checkLanding defaultConfig gMiss).player.y := by
  have hland : landedPlatformOf defaultConfig gMiss = none := by
    norm_num [landedPlatformOf, gMiss, defaultConfig, List.find?]
  have hcl : checkLanding defaultConfig gMiss = gameOver gMiss := by
    have hcond1 : ¬ (gMiss.player.isJumping = false ∨ gMiss.player.vy ≤ (0:ℚ)) := by
      norm_num [gMiss]
    have hcond2 : gMiss.player.y + defaultConfig.PLAYER_SIZE ≥ defaultConfig.GROUND_Y := by
      norm_num [gMiss, defaultConfig]
    unfold checkLanding
    rw [if_neg hcond1, if_pos hcond2, hland]
  have hupd : (update defaultConfig 0 0 1 (gameOver gMiss)).player =
      Player.update defaultConfig (gameOver gMiss).player :=
    update_player_game_over defaultConfig 0 0 1 (gameOver gMiss) rfl
  constructor
  · rw [hcl]; rfl
  · rw [hcl, hupd]
    norm_num [Player.update, gameOver, gMiss, defaultConfig]

/-- C3 (amended): gravity integration is gated on the actor's `isJumping`
flag, not on the session state.  The failure transition to `GAME_OVER`
leaves the player record untouched, so on every subsequent tick in
`GAME_OVER` the actor continues to be integrated (its y advances by vy)
while `isJumping` is still set; it is frozen only if `isJumping` is
clear. -/
theorem gravity_integration_follows_airborne_flag (cfg : Config)
    (now rand typeRand : ℚ) (g : Game)
    (hgo : g.gameState = GameState.gameOver) :
    (gameOver g).player = g.player ∧
    (update cfg now rand typeRand g).player = Player.update cfg g.player ∧
    (g.player.isJumping = false → (update cfg now rand typeRand g).player = g.player) ∧
    (g.player.isJumping = true →
      (update cfg now rand typeRand g).player.y = g.player.y + g.player.vy) := by
  refine ⟨rfl, update_player_game_over cfg now rand typeRand g hgo, ?_, ?_⟩
  · intro h
    rw [update_player_game_over cfg now rand typeRand g hgo]
    simp [Player.update, h]
  · intro h
    rw [update_player_game_over cfg now rand typeRand g hgo]
    simp [Player.update, h]

/-- Witness for the amended C3: in the concrete `GAME_OVER` state
`gMissOver` the next tick advances the actor's y by its vy. -/
theorem gravity_integration_follows_airborne_flag_witness :
    (update defaultConfig 0 0 1 gMissOver).player.y =
      gMissOver.player.y + gMissOver.player.vy := by
  have h := gravity_integration_follows_airborne_flag defaultConfig 0 0 1 gMissOver rfl
  exact h.2.2.2 rfl

/-- A platform centered exactly on the `gZeroPower` player's center, for a
perfect landing. -/
def pPerfect : Platform := ⟨5, 300, PlatformType.normal⟩

/-- Counterexample to C4 as stated: after a perfect landing from combo 0
the combo is 1, and the failure transition `gameOver()` does not reset it
to 0 — `gameOver()` touches only the state field. -/
theorem combo_survives_game_over :
    (gameOver (handleSuccessfulLanding defaultConfig gZeroPower pPerfect)).combo ≠ 0 := by
  have h : (handleSuccessfulLanding defaultConfig gZeroPower pPerfect).combo = 1 := by
    norm_num [handleSuccessfulLanding, gZeroPower, pPerfect, defaultConfig]
    simp
  rw [combo_gameOver, h]
  norm_num

/-- C4 (amended): the combo is non-zero only immediately after a perfect
landing — a perfect landing increments it, a normal landing zeroes it, and
the session reset (press in `GAME_OVER`) zeroes it — but the failure
transition to `GAME_OVER` itself leaves the combo unchanged. -/
theorem combo_reset_rules (cfg : Config) (now : ℚ) (g : Game) (platform : Platform) :
    (handleSuccessfulLanding cfg g platform).combo =
      (if |platform.x + cfg.PLATFORM_WIDTH / 2 - (g.player.x + cfg.PLAYER_SIZE / 2)| ≤
          cfg.PERFECT_TOLERANCE then g.combo + 1 else 0) ∧
    (gameOver g).combo = g.combo ∧
    (g.gameState = GameState.gameOver → (handleTouchStart cfg now g).combo = 0) := by
  refine ⟨?_, rfl, ?_⟩
  · simp only [handleSuccessfulLanding]
    split <;> split <;> simp_all
  · intro h
    simp [handleTouchStart, h, restart, initGameObjects]

/-- Witness for the amended C4: the session reset from the concrete
`GAME_OVER` state `gMissOver` zeroes the combo. -/
theorem combo_reset_rules_witness :
    (handleTouchStart defaultConfig 0 gMissOver).combo = 0 := by
  have h := combo_reset_rules defaultConfig 0 gMissOver pPerfect
  exact h.2.2 rfl

/-! ### Platform stream lemmas -/

/-- In a platform list strictly sorted by x, every element's x is bounded by
the last element's x. -/
theorem le_getLast_of_pairwise_lt :
    ∀ (l : List Platform) (q : Platform), l.getLast? = some q →
      l.Pairwise (fun a b => a.x < b.x) → ∀ p ∈ l, p.x ≤ q.x := by
  intro l
  induction l with
  | nil => intro q h; exact absurd h (by simp)
  | cons a t ih =>
    intro q hlast hpw p hp
    cases t with
    | nil =>
      simp at hlast hp
      rw [hp, hlast]
    | cons b t2 =>
      rw [List.getLast?_cons_cons] at hlast
      rcases List.mem_cons.mp hp with rfl | hp2
      · have hq : q ∈ b :: t2 := List.mem_of_getLast?_eq_some hlast
        exact le_of_lt ((List.pairwise_cons.mp hpw).1 q hq)
      · exact ih q hlast (List.pairwise_cons.mp hpw).2 p hp2

/-- Closed form of the platform list produced by one `generatePlatforms`
run: a single conditional append of the new platform, followed by the
eviction filter. -/
theorem generatePlatforms_platforms (cfg : Config) (rand typeRand : ℚ) (g : Game)
    (lastPlatform : Platform) (hl : g.platforms.getLast? = some lastPlatform) :
    (generatePlatforms cfg rand typeRand g).platforms =
      (if lastPlatform.x < g.cameraX + g.logicalWidth + 200 then
         g.platforms ++ [(⟨lastPlatform.x + cfg.BASE_DISTANCE + rand +
            (g.score : ℚ) * cfg.DIFFICULTY_FACTOR, cfg.GROUND_Y,
            getRandomPlatformType typeRand⟩ : Platform)]
       else g.platforms).filter (fun platform => decide (platform.x > g.cameraX - 200)) := by
  simp only [generatePlatforms, hl]
  split <;> rfl

/-- C7: after any `generatePlatforms` run, every retained platform lies
strictly ahead of `camera.x - 200`, and a platform list strictly sorted by
x stays strictly sorted (in particular no two retained platforms share an
x).  The hypotheses record that the base distance is positive, the
difficulty factor non-negative, and the random offset non-negative, as they
are for the actual configurations and `Math.random() * 100`. -/
theorem platform_stream_invariant (cfg : Config) (rand typeRand : ℚ) (g : Game)
    (hbase : 0 < cfg.BASE_DISTANCE) (hfac : 0 ≤ cfg.DIFFICULTY_FACTOR) (hrand : 0 ≤ rand)
    (hsorted : g.platforms.Pairwise (fun a b => a.x < b.x)) :
    (∀ p ∈ (generatePlatforms cfg rand typeRand g).platforms, p.x > g.cameraX - 200) ∧
    (generatePlatforms cfg rand typeRand g).platforms.Pairwise (fun a b => a.x < b.x) ∧
    (generatePlatforms cfg rand typeRand g).platforms.Pairwise (fun a b => a.x ≠ b.x) := by
  rcases hl : g.platforms.getLast? with - | lastPlatform
  · have hres : generatePlatforms cfg rand typeRand g = g := by
      simp only [generatePlatforms, hl]
    have hnil : g.platforms = [] := List.getLast?_eq_none_iff.mp hl
    rw [hres, hnil]
    simp
  · have hLsorted :
        (if lastPlatform.x < g.cameraX + g.logicalWidth + 200 then
            g.platforms ++ [(⟨lastPlatform.x + cfg.BASE_DISTANCE + rand +
               (g.score : ℚ) * cfg.DIFFICULTY_FACTOR, cfg.GROUND_Y,
               getRandomPlatformType typeRand⟩ : Platform)]
          else g.platforms).Pairwise (fun a b => a.x < b.x) := by
      split
      · rw [List.pairwise_append]
        refine ⟨hsorted, by simp, ?_⟩
        intro a ha b hb
        rw [List.mem_singleton] at hb
        subst hb
        have hax := le_getLast_of_pairwise_lt g.platforms lastPlatform hl hsorted a ha
        have hsc : (0:ℚ) ≤ (g.score : ℚ) * cfg.DIFFICULTY_FACTOR :=
          mul_nonneg (Nat.cast_nonneg _) hfac
        show a.x < lastPlatform.x + cfg.BASE_DISTANCE + rand +
          (g.score : ℚ) * cfg.DIFFICULTY_FACTOR
        linarith
      · exact hsorted
    rw [generatePlatforms_platforms cfg rand typeRand g lastPlatform hl]
    refine ⟨?_, hLsorted.filter _, (hLsorted.filter _).imp (fun h => ne_of_lt h)⟩
    intro p hp
    exact of_decide_eq_true (List.mem_filter.mp hp).2

/-- A session whose stream is the single platform at x = 0 (camera at 0,
viewport width 800, score 0). -/
def gStream : Game :=
  { gZeroPower with platforms := [⟨0, 300, PlatformType.normal⟩] }

/-- Witness for C7 at the concrete state `gStream` with a zero random
offset. -/
theorem platform_stream_invariant_witness :
    (∀ p ∈ (generatePlatforms defaultConfig 0 1 gStream).platforms,
        p.x > gStream.cameraX - 200) ∧
    (generatePlatforms defaultConfig 0 1 gStream).platforms.Pairwise (fun a b => a.x < b.x) ∧
    (generatePlatforms defaultConfig 0 1 gStream).platforms.Pairwise (fun a b => a.x ≠ b.x) :=
  platform_stream_invariant defaultConfig 0 1 gStream (by norm_num [defaultConfig])
    (by norm_num [defaultConfig]) le_rfl (by simp [gStream, gZeroPower])

/-- Counterexample to C8 as stated: `generatePlatforms` is a single
conditional append, not a while loop.  From `gStream` (camera 0, viewport
800) one run leaves the platforms at x = 0 and x = 100, and the rightmost
x = 100 is far short of `cameraX + viewportWidth + 200 = 1000`. -/
theorem extension_not_a_while_loop :
    ((generatePlatforms defaultConfig 0 1 gStream).platforms.map Platform.x) = [0, 100] ∧
    ¬ ((100 : ℚ) ≥ gStream.cameraX + gStream.logicalWidth + 200) := by
  constructor
  · rw [generatePlatforms_platforms defaultConfig 0 1 gStream
      ⟨0, 300, PlatformType.normal⟩ rfl]
    norm_num [gStream, gZeroPower, defaultConfig, getRandomPlatformType, List.filter]
  · norm_num [gStream, gZeroPower]

/-- C8 (amended): one `generatePlatforms` run appends at most one platform:
whenever the rightmost platform is still within
`cameraX + viewportWidth + 200` (and survives eviction), exactly one
platform is appended at
`x = rightmostX + BASE_DISTANCE + rand + score * DIFFICULTY_FACTOR` with
type given by the weighted draw on the supplied random value; covering the
look-ahead region takes multiple ticks, one append per tick. -/
theorem extension_single_conditional_append (rand typeRand : ℚ) (g : Game)
    (lastPlatform : Platform) (hl : g.platforms.getLast? = some lastPlatform)
    (hrand : 0 ≤ rand) (hbehind : lastPlatform.x > g.cameraX - 200)
    (hneed : lastPlatform.x < g.cameraX + g.logicalWidth + 200) :
    (generatePlatforms defaultConfig rand typeRand g).platforms =
      g.platforms.filter (fun platform => decide (platform.x > g.cameraX - 200)) ++
        [(⟨lastPlatform.x + defaultConfig.BASE_DISTANCE + rand +
            (g.score : ℚ) * defaultConfig.DIFFICULTY_FACTOR,
          defaultConfig.GROUND_Y, getRandomPlatformType typeRand⟩ : Platform)] := by
  have hsc : (0:ℚ) ≤ (g.score : ℚ) * defaultConfig.DIFFICULTY_FACTOR :=
    mul_nonneg (Nat.cast_nonneg _) (by norm_num [defaultConfig])
  have hb : (0:ℚ) < defaultConfig.BASE_DISTANCE := by norm_num [defaultConfig]
  have hpass : lastPlatform.x + defaultConfig.BASE_DISTANCE + rand +
      (g.score : ℚ) * defaultConfig.DIFFICULTY_FACTOR > g.cameraX - 200 := by
    linarith
  rw [generatePlatforms_platforms defaultConfig rand typeRand g lastPlatform hl,
    if_pos hneed, List.filter_append]
  simp [hpass]

/-- Witness for the amended C8: one run from `gStream` appends exactly the
platform at x = 0 + 100 + 0 + 0 * 1.5 = 100. -/
theorem extension_single_conditional_append_witness :
    (generatePlatforms defaultConfig 0 1 gStream).platforms =
      [⟨0, 300, PlatformType.normal⟩, ⟨100, 300, PlatformType.normal⟩] := by
  rw [extension_single_conditional_append 0 1 gStream ⟨0, 300, PlatformType.normal⟩ rfl
    le_rfl (by norm_num [gStream, gZeroPower]) (by norm_num [gStream, gZeroPower])]
  norm_num [gStream, gZeroPower, defaultConfig, getRandomPlatformType, List.filter]

end JumpGame
